import Mathlib

/-!
# IV-12 VFD Clock: the declarations of `VFD_Clock.h`

A shallow embedding of `firmware/vfd_clock/VFD_Clock.h`: the constants, the
glyph table `BITMAP`, the enumerations and the three structures with their
default constructors. Bytes (`uint8_t`, `char`) and `uint32_t` values are
natural numbers; arrays are lists.
-/

set_option linter.dupNamespace false

namespace VFDClock

/-! ## Constants -/

/-- Header: `const uint8_t DISPLAY_COUNT = 6;` -/
def DISPLAY_COUNT : Nat := 6

/-- Header: `const char CONFIG_KEY = '$';`, as its character code. -/
def CONFIG_KEY : Nat := '$'.toNat

/-- Header: `const uint8_t ALARM_COUNT = 3;` -/
def ALARM_COUNT : Nat := 3

/-! ## Digit representation

The header documents the position of every segment in a glyph byte:
```
 777777
 6    5
 6    5
 444444
 3    2
 3    2 00
 111111 00
```
"Where bit == (1 << #)". -/

/-- The eight segments of one tube, named by their place in the diagram. -/
inductive Segment where
  | top
  | upperLeft
  | upperRight
  | middle
  | lowerLeft
  | lowerRight
  | bottom
  | point
  deriving DecidableEq, Repr, Fintype

/-- The number drawn at the segment's place in the diagram. -/
def Segment.bit : Segment → Nat
  | .top => 7
  | .upperLeft => 6
  | .upperRight => 5
  | .middle => 4
  | .lowerLeft => 3
  | .lowerRight => 2
  | .bottom => 1
  | .point => 0

/-- The byte with exactly the bits of the listed segments set
("bit == (1 << #)"). -/
def segmentMask (segs : List Segment) : Nat :=
  segs.foldl (fun m s => m ||| (1 <<< s.bit)) 0

/-- Whether bit `k` of the byte `g` is set. -/
def bitSet (g k : Nat) : Bool := (g >>> k) % 2 == 1

/-- Header: `static const uint8_t BITMAP[96] PROGMEM`, row by row. -/
def BITMAP : List Nat :=
  [ 0x00, 0x21, 0x60, 0x58, 0xD6, 0x39, 0xC6, 0x20, --  !"#$%&'
    0x48, 0x24, 0xF0, 0x34, 0x03, 0x10, 0x01, 0x38, -- ()*+,-./
    0xEE, 0x24, 0xBA, 0xB6, 0x74, 0xD6, 0xDE, 0xA4, -- 01234567
    0xFE, 0xF6, 0x82, 0x86, 0x3A, 0x12, 0x56, 0xB9, -- 89:;<=>?
    0xBE, 0xFC, 0x5E, 0xCA, 0x3E, 0xDA, 0xD8, 0xF6, -- @ABCDEFG
    0x7C, 0x24, 0x2E, 0x7C, 0x4A, 0xEC, 0xEC, 0xEE, -- HIJKLMNO
    0xF8, 0xF4, 0xC8, 0xD6, 0x5A, 0x6E, 0x6E, 0x6E, -- PQRSTUVW
    0x7C, 0x76, 0xBA, 0xCA, 0x54, 0xA6, 0xE0, 0x02, -- XYZ[\]^_
    0x40, 0xBE, 0x5E, 0x1A, 0x3E, 0xFA, 0xD8, 0xF6, -- (backquote)abcdefg
    0x5C, 0x04, 0x2E, 0x7C, 0x4A, 0x1C, 0x1C, 0x1E, -- hijklmno
    0xF8, 0xF4, 0x18, 0xD6, 0x5A, 0x0E, 0x0E, 0x0E, -- pqrstuvw
    0x7C, 0x76, 0xBA, 0x08, 0x48, 0x04, 0x80, 0xFF  -- xyz(brace)|(brace)~ and the full block
  ]

/-- The declared size of the table, `BITMAP[96]`. -/
def BITMAP_SIZE : Nat := 96

/-! ## Enumerations -/

/-- Header: `enum interrupt_speed_t : uint8_t`. The header derives the fast value as
"16MHz / (60Hz * 6 tubes * 8 levels * 128 prescale)". -/
def INTERRUPT_FAST : Nat := 43

/-- Header: `INTERRUPT_SLOW = 255`. -/
def INTERRUPT_SLOW : Nat := 255

/-- Header: `enum class FormatDate : uint8_t`. -/
inductive FormatDate where
  | YYMMDD
  | MMDDYY
  | DDMMYY
  deriving DecidableEq, Repr

/-- Header: `enum class FormatTime : uint8_t`. -/
inductive FormatTime where
  | H24
  | H12
  deriving DecidableEq, Repr

/-- Header: `enum class Effect : uint8_t`. -/
inductive Effect where
  | NONE
  | SPIRAL
  | DATE
  | PHRASE
  deriving DecidableEq, Repr

/-- Header: `enum class State : bool`. -/
inductive State where
  | DISABLE
  | ENABLE
  deriving DecidableEq, Repr

namespace CDisplay

/-- Modelled from the spec: `CDisplay::Brightness` is declared by the display
library (`nDisplay.h`), which is not among the sources; the header only uses
its value `AUTO`. The spec's data model gives "brightness mode (manual level
0..N or AUTO)". -/
inductive Brightness where
  | AUTO
  | LEVEL (n : Nat)
  deriving DecidableEq, Repr

end CDisplay

namespace CRTC

/-- Modelled from the spec: `CRTC::Unit` is declared by the clock-chip library
(`DS323x.h`), which is not among the sources; the header only uses its value
`F`. The spec's data model gives "temperature unit". -/
inductive Unit where
  | C
  | F
  deriving DecidableEq, Repr

end CRTC

/-! ## Structures -/

/-- Header: `struct AlarmStruct`: `State state; uint8_t music; uint8_t days;
uint32_t time;`. -/
structure AlarmStruct where
  state : State
  music : Nat
  days : Nat
  time : Nat
  deriving DecidableEq, Repr

/-- The constructor `AlarmStruct::AlarmStruct()`. -/
def AlarmStruct.AlarmStruct : AlarmStruct :=
  { state := State.DISABLE
    music := 0
    days := 0
    time := 0 }

/-- Header: `struct Config`, field by field in the declared order. The two
arrays are lists. -/
structure Config where
  validate : Nat
  noise : State
  battery : State
  brightness : CDisplay.Brightness
  gain : Nat
  offset : Nat
  date_format : FormatDate
  time_format : FormatTime
  temperature_unit : CRTC.Unit
  effect : Effect
  blank_begin : Nat
  blank_end : Nat
  music_timer : Nat
  alarm : List AlarmStruct
  phrase : List Nat
  deriving DecidableEq, Repr

/-- Program memory literal `PSTR("...")`: the bytes of a string literal as they lie in program
memory, the characters followed by the terminating NUL. -/
def PSTR (s : String) : List Nat :=
  s.toList.map Char.toNat ++ [0]

/-- Copy `memcpy_P(dest, src, n)`: the first `n` bytes of `dest` become the first
`n` bytes of `src`. The C call is defined only when `n` bytes exist on both
sides, which is `memcpy_P_inBounds`. -/
def memcpy_P (dest src : List Nat) (n : Nat) : List Nat :=
  src.take n ++ dest.drop n

/-- The precondition of `memcpy_P(dest, src, n)`: neither the read of `src`
nor the write of `dest` leaves its array. -/
def memcpy_P_inBounds (dest src : List Nat) (n : Nat) : Prop :=
  n ≤ src.length ∧ n ≤ dest.length

instance (dest src : List Nat) (n : Nat) : Decidable (memcpy_P_inBounds dest src n) :=
  inferInstanceAs (Decidable (_ ∧ _))

/-- The member `char phrase[DISPLAY_COUNT + 1]` before the constructor body
runs. No initialiser names it, so C leaves its bytes indeterminate; they are
zero here, and `memcpy_P` overwrites every one of them. -/
def phraseStorage : List Nat :=
  List.replicate (DISPLAY_COUNT + 1) 0

/-- The constructor `Config::Config()`: the member initialisers in order,
`alarm()` default-constructing each of the `ALARM_COUNT` entries, then the
body `memcpy_P(phrase, PSTR("Photon"), DISPLAY_COUNT + 1)`. -/
def Config.Config : Config :=
  { validate := CONFIG_KEY
    noise := State.ENABLE
    battery := State.ENABLE
    brightness := CDisplay.Brightness.AUTO
    gain := 10
    offset := 10
    date_format := FormatDate.DDMMYY
    time_format := FormatTime.H24
    temperature_unit := CRTC.Unit.F
    effect := Effect.NONE
    blank_begin := 0
    blank_end := 0
    music_timer := 0
    alarm := List.replicate ALARM_COUNT AlarmStruct.AlarmStruct
    phrase := memcpy_P phraseStorage (PSTR "Photon") (DISPLAY_COUNT + 1) }

/-! ## Parts without a body in the header -/

/-- Modelled from the spec: the glyph lookup (GlyphEncoder) has no body in the
header, which only holds its table. Spec 4.1: "given one character from the
supported set ... return its fixed 8-bit segment bitmap. Pure, total function
over the supported range; characters outside range map to a defined fallback
(blank)"; spec 6: the table covers "code points 0x20-0x7F". The result is
`none` only if the read leaves the table. -/
def glyph (c : Nat) : Option Nat :=
  if 0x20 ≤ c ∧ c ≤ 0x7F then BITMAP[c - 0x20]? else some 0x00

/-- Modelled from the spec: the persistent store behind `GetConfig` and
`SetConfig` (only prototypes in the header). Spec 6: one persisted record
"stored at a fixed location in non-volatile memory". -/
structure Eeprom where
  record : Config
  deriving DecidableEq, Repr

/-- Modelled from the spec: `void SetConfig(const Config& g_config)` has no
body in the header. Spec 4.7: "Save: write full record back". -/
def SetConfig (g_config : Config) (_eeprom : Eeprom) : Eeprom :=
  { record := g_config }

/-- Modelled from the spec: `void GetConfig(Config& g_config)` has no body in
the header. Spec 4.7: "Load: read persisted record; if sentinel byte
mismatches expected value, discard and construct defaults". -/
def GetConfig (eeprom : Eeprom) : Config :=
  if eeprom.record.validate ≠ CONFIG_KEY then Config.Config else eeprom.record

/-! ## The standard seven-segment digits -/

/-- The segments that the standard seven-segment rendering lights for a
decimal digit (no segment for anything else). -/
def standardDigit : Nat → List Segment
  | 0 => [.top, .upperLeft, .upperRight, .lowerLeft, .lowerRight, .bottom]
  | 1 => [.upperRight, .lowerRight]
  | 2 => [.top, .upperRight, .middle, .lowerLeft, .bottom]
  | 3 => [.top, .upperRight, .middle, .lowerRight, .bottom]
  | 4 => [.upperLeft, .upperRight, .middle, .lowerRight]
  | 5 => [.top, .upperLeft, .middle, .lowerRight, .bottom]
  | 6 => [.top, .upperLeft, .middle, .lowerLeft, .lowerRight, .bottom]
  | 7 => [.top, .upperRight, .lowerRight]
  | 8 => [.top, .upperLeft, .upperRight, .middle, .lowerLeft, .lowerRight, .bottom]
  | 9 => [.top, .upperLeft, .upperRight, .middle, .lowerRight, .bottom]
  | _ => []

/-- The character codes of the digits and of the upper and lower case
letters. -/
def isAlphanumeric (c : Nat) : Bool :=
  ('0'.toNat ≤ c && c ≤ '9'.toNat) || ('A'.toNat ≤ c && c ≤ 'Z'.toNat) ||
    ('a'.toNat ≤ c && c ≤ 'z'.toNat)

end VFDClock

namespace VFDClock

/-! ## The glyph table -/

/-- Every code of the table's range reads inside the table. -/
theorem BITMAP_read_some (c : Nat) (h1 : 0x20 ≤ c) (h2 : c ≤ 0x7F) :
    ∃ h : c - 0x20 < BITMAP.length, BITMAP[c - 0x20]? = some (BITMAP.get ⟨c - 0x20, h⟩) := by
  have hlen : BITMAP.length = 96 := by decide
  have h : c - 0x20 < BITMAP.length := by omega
  exact ⟨h, List.getElem?_eq_getElem h⟩

/-- C1: the glyph lookup is total. A code in 0x20..0x7F gets exactly its table
entry `BITMAP[c - 0x20]` (the 96 glyphs in code order are the table as
listed; space is 0x00, '0' is 0xEE, 'A' is 0xFC, '~' is 0x80), and every other
code gets the blank glyph 0x00. -/
theorem glyph_lookup_total (c : Nat) :
    (0x20 ≤ c ∧ c ≤ 0x7F →
      ∃ h : c - 0x20 < BITMAP.length, glyph c = some (BITMAP.get ⟨c - 0x20, h⟩)) ∧
    (¬ (0x20 ≤ c ∧ c ≤ 0x7F) → glyph c = some 0x00) ∧
    (glyph c).isSome = true ∧
    (List.range 96).map (fun i => glyph (0x20 + i)) = BITMAP.map some ∧
    glyph 0x20 = some 0x00 ∧ glyph ('0'.toNat) = some 0xEE ∧
    glyph ('A'.toNat) = some 0xFC ∧ glyph ('~'.toNat) = some 0x80 := by
  have hin : 0x20 ≤ c ∧ c ≤ 0x7F →
      ∃ h : c - 0x20 < BITMAP.length, glyph c = some (BITMAP.get ⟨c - 0x20, h⟩) := by
    intro hc
    obtain ⟨h, hread⟩ := BITMAP_read_some c hc.1 hc.2
    exact ⟨h, by simp only [glyph, if_pos hc, hread]⟩
  have hout : ¬ (0x20 ≤ c ∧ c ≤ 0x7F) → glyph c = some 0x00 := by
    intro hc
    simp only [glyph, if_neg hc]
  refine ⟨hin, hout, ?_, by decide, by decide, by decide, by decide, by decide⟩
  by_cases hc : 0x20 ≤ c ∧ c ≤ 0x7F
  · obtain ⟨_, hg⟩ := hin hc
    simp [hg]
  · simp [hout hc]

/-- The lookup at a letter, at a control code and above the table. -/
theorem glyph_lookup_total_witness :
    glyph 0x50 = some 0xF8 ∧ glyph 0x0A = some 0x00 ∧ glyph 0xE9 = some 0x00 := by
  refine ⟨?_, (glyph_lookup_total 0x0A).2.1 (by decide), (glyph_lookup_total 0xE9).2.1 (by decide)⟩
  obtain ⟨_, h⟩ := (glyph_lookup_total 0x50).1 (by decide)
  rw [h]
  rfl

/-- C2: the table has exactly 96 one-byte entries, one for each code point
0x20..0x7F: every code of that range indexes inside the table (index 0..95),
and every index of the table belongs to exactly one code of that range. -/
theorem BITMAP_bounds :
    BITMAP.length = 96 ∧ BITMAP.length = BITMAP_SIZE ∧
    (∀ b ∈ BITMAP, b < 256) ∧
    0x7F - 0x20 + 1 = BITMAP.length ∧
    (∀ c, 0x20 ≤ c → c ≤ 0x7F →
      c - 0x20 ≤ 95 ∧ c - 0x20 < BITMAP.length ∧ (BITMAP[c - 0x20]?).isSome = true) ∧
    (∀ i, i < BITMAP.length →
      0x20 ≤ i + 0x20 ∧ i + 0x20 ≤ 0x7F ∧ (i + 0x20) - 0x20 = i) := by
  have hlen : BITMAP.length = 96 := by decide
  refine ⟨hlen, by decide, by decide, by decide, ?_, ?_⟩
  · intro c h1 h2
    obtain ⟨h, hread⟩ := BITMAP_read_some c h1 h2
    refine ⟨by omega, h, ?_⟩
    rw [hread]
    rfl
  · intro i hi
    omega

/-- The first and the last code of the range read the first and the last
entry of the table. -/
theorem BITMAP_bounds_witness :
    (0x20 - 0x20 ≤ 95 ∧ 0x20 - 0x20 < BITMAP.length ∧ (BITMAP[0x20 - 0x20]?).isSome = true) ∧
    (0x7F - 0x20 ≤ 95 ∧ 0x7F - 0x20 < BITMAP.length ∧ (BITMAP[0x7F - 0x20]?).isSome = true) :=
  ⟨BITMAP_bounds.2.2.2.2.1 0x20 (by decide) (by decide),
   BITMAP_bounds.2.2.2.2.1 0x7F (by decide) (by decide)⟩

set_option maxRecDepth 8192 in
/-- No entry below index 95 is the full block. -/
theorem BITMAP_below_95_ne_full :
    ∀ i, i < 95 → ∃ g, BITMAP[i]? = some g ∧ g ≠ 0xFF := by
  decide

/-- C3: exactly one glyph has all segments on. The entry of code 0x7F (index
95) is 0xFF, and the entry of every printable code 0x20..0x7E differs from
0xFF. -/
theorem BITMAP_full_block_unique :
    0x7F - 0x20 = 95 ∧ BITMAP[95]? = some 0xFF ∧ BITMAP.count 0xFF = 1 ∧
    (∀ c, 0x20 ≤ c → c ≤ 0x7E → ∃ g, BITMAP[c - 0x20]? = some g ∧ g ≠ 0xFF) := by
  refine ⟨by decide, by decide, by decide, ?_⟩
  intro c h1 h2
  exact BITMAP_below_95_ne_full (c - 0x20) (by omega)

/-- The entries of 'A' and of '~' are not the full block. -/
theorem BITMAP_full_block_unique_witness :
    (∃ g, BITMAP['A'.toNat - 0x20]? = some g ∧ g ≠ 0xFF) ∧
    (∃ g, BITMAP[0x7E - 0x20]? = some g ∧ g ≠ 0xFF) :=
  ⟨BITMAP_full_block_unique.2.2.2 ('A'.toNat) (by decide) (by decide),
   BITMAP_full_block_unique.2.2.2 0x7E (by decide) (by decide)⟩

/-- C4: under the documented layout (bit 7 top, 6 upper left, 5 upper right,
4 middle, 3 lower left, 2 lower right, 1 bottom, 0 decimal point) the entry of
each digit character '0'+d is the standard seven-segment rendering of d, and
the ten digit glyphs are pairwise distinct. -/
theorem BITMAP_digits_standard :
    (Segment.top.bit = 7 ∧ Segment.upperLeft.bit = 6 ∧ Segment.upperRight.bit = 5 ∧
      Segment.middle.bit = 4 ∧ Segment.lowerLeft.bit = 3 ∧ Segment.lowerRight.bit = 2 ∧
      Segment.bottom.bit = 1 ∧ Segment.point.bit = 0) ∧
    (∀ d, d ≤ 9 →
      BITMAP['0'.toNat + d - 0x20]? = some (segmentMask (standardDigit d))) ∧
    (∀ d, d ≤ 9 → ∀ s : Segment,
      bitSet (segmentMask (standardDigit d)) s.bit = decide (s ∈ standardDigit d)) ∧
    (∀ d, d ≤ 9 → ∀ e, e ≤ 9 → d ≠ e →
      BITMAP['0'.toNat + d - 0x20]? ≠ BITMAP['0'.toNat + e - 0x20]?) := by
  refine ⟨by decide, by decide, ?_, by decide⟩
  intro d hd s
  interval_cases d <;> cases s <;> decide

/-- The entries of '0' and '7', and their difference. -/
theorem BITMAP_digits_standard_witness :
    BITMAP['0'.toNat + 0 - 0x20]? = some 0xEE ∧ BITMAP['0'.toNat + 7 - 0x20]? = some 0xA4 ∧
    BITMAP['0'.toNat + 0 - 0x20]? ≠ BITMAP['0'.toNat + 7 - 0x20]? :=
  ⟨BITMAP_digits_standard.2.1 0 (by decide), BITMAP_digits_standard.2.1 7 (by decide),
   BITMAP_digits_standard.2.2.2 0 (by decide) 7 (by decide) (by decide)⟩

set_option maxRecDepth 16384 in
/-- Bit 0 is clear in every digit and letter entry, and setting it adds one
to the byte. -/
theorem BITMAP_alphanumeric_point_clear :
    ∀ i, i < 96 → isAlphanumeric (i + 0x20) = true → ∀ g ∈ BITMAP[i]?,
      bitSet g Segment.point.bit = false ∧ g ||| 1 = g + 1 ∧
      bitSet (g ||| 1) Segment.point.bit = true := by
  decide

set_option maxRecDepth 16384 in
/-- Setting bit 0 of an entry leaves its seven other segments as they were. -/
theorem BITMAP_point_keeps_segments :
    ∀ i, i < 96 → ∀ g ∈ BITMAP[i]?,
      ∀ s : Segment, s ≠ Segment.point → bitSet (g ||| 1) s.bit = bitSet g s.bit := by
  decide

set_option maxRecDepth 16384 in
/-- Below the full block, bit 0 is set in five punctuation entries only. -/
theorem BITMAP_point_entries :
    ∀ i, i < 95 → ∀ g ∈ BITMAP[i]?,
      (bitSet g Segment.point.bit = true ↔
        i + 0x20 ∈ ['!', '%', ',', '.', '?'].map Char.toNat) := by
  decide

/-- C10: no digit and no letter glyph uses the decimal point segment: bit 0
of its entry is clear, so setting bit 0 adds the decimal point and changes none
of the seven segments. Among the codes 0x20..0x7E the entries with bit 0 set
are exactly those of '!', '%', ',', '.' and '?'. -/
theorem alphanumeric_no_decimal_point :
    (∀ c, isAlphanumeric c = true →
      ∃ g, BITMAP[c - 0x20]? = some g ∧ bitSet g 0 = false ∧ g ||| 1 = g + 1 ∧
        bitSet (g ||| 1) 0 = true ∧
        ∀ s : Segment, s ≠ Segment.point → bitSet (g ||| 1) s.bit = bitSet g s.bit) ∧
    (∀ c, 0x20 ≤ c → c ≤ 0x7E → ∀ g, BITMAP[c - 0x20]? = some g →
      (bitSet g 0 = true ↔ c ∈ ['!', '%', ',', '.', '?'].map Char.toNat)) := by
  constructor
  · intro c hc
    have hb : 0x30 ≤ c ∧ c ≤ 0x7A := by
      simp only [isAlphanumeric, Bool.or_eq_true, Bool.and_eq_true, decide_eq_true_eq] at hc
      have h0 : '0'.toNat = 0x30 := by decide
      have h9 : '9'.toNat = 0x39 := by decide
      have hA : 'A'.toNat = 0x41 := by decide
      have hZ : 'Z'.toNat = 0x5A := by decide
      have ha : 'a'.toNat = 0x61 := by decide
      have hz : 'z'.toNat = 0x7A := by decide
      omega
    obtain ⟨h, hread⟩ := BITMAP_read_some c (by omega) (by omega)
    have hlen : BITMAP.length = 96 := by decide
    have hc' : isAlphanumeric (c - 0x20 + 0x20) = true := by
      rw [Nat.sub_add_cancel (by omega)]
      exact hc
    obtain ⟨hp, hor, hset⟩ := BITMAP_alphanumeric_point_clear (c - 0x20) (by omega) hc' _ hread
    exact ⟨_, hread, hp, hor, hset, BITMAP_point_keeps_segments (c - 0x20) (by omega) _ hread⟩
  · intro c h1 h2 g hg
    have h := BITMAP_point_entries (c - 0x20) (by omega) g hg
    rw [Nat.sub_add_cancel h1] at h
    exact h

/-- The entry of '8' has no decimal point, the entry of '.' has one. -/
theorem alphanumeric_no_decimal_point_witness :
    (∃ g, BITMAP['8'.toNat - 0x20]? = some g ∧ bitSet g 0 = false ∧ g ||| 1 = g + 1 ∧
        bitSet (g ||| 1) 0 = true ∧
        ∀ s : Segment, s ≠ Segment.point → bitSet (g ||| 1) s.bit = bitSet g s.bit) ∧
    (bitSet 0x01 0 = true ↔ '.'.toNat ∈ ['!', '%', ',', '.', '?'].map Char.toNat) :=
  ⟨alphanumeric_no_decimal_point.1 ('8'.toNat) (by decide),
   alphanumeric_no_decimal_point.2 ('.'.toNat) (by decide) (by decide) 0x01 (by decide)⟩

/-! ## The interrupt compare values -/

/-- C8: the fast compare value 43 is the integer quotient of the documented
derivation 16 MHz / (60 Hz * 6 tubes * 8 levels * 128 prescale), the tube
count being `DISPLAY_COUNT`; it fits in 8 bits and is strictly smaller than
the slow value 255. -/
theorem INTERRUPT_FAST_derivation :
    INTERRUPT_FAST = 16000000 / (60 * DISPLAY_COUNT * 8 * 128) ∧
    INTERRUPT_FAST = 43 ∧ DISPLAY_COUNT = 6 ∧
    INTERRUPT_FAST < 2 ^ 8 ∧ INTERRUPT_SLOW = 255 ∧ INTERRUPT_FAST < INTERRUPT_SLOW := by
  decide

/-! ## The default configuration -/

/-- C7: the default constructed `Config` carries the valid sentinel: its
`validate` byte is `CONFIG_KEY`, the code of '$', so the sentinel comparison
accepts the record that stands in for an uninitialised one. -/
theorem default_sentinel_valid :
    Config.Config.validate = CONFIG_KEY ∧ CONFIG_KEY = '$'.toNat ∧ CONFIG_KEY = 0x24 ∧
    CONFIG_KEY < 2 ^ 8 := by
  decide

/-- C6: each of the `ALARM_COUNT` (3) alarm entries of the default `Config`
has time 0, inside 0..86399, state DISABLE, melody 0 and an empty day mask:
no bit of the mask is set, so it matches no weekday, and it is not enabled. -/
theorem default_alarms_invariant :
    ALARM_COUNT = 3 ∧ Config.Config.alarm.length = ALARM_COUNT ∧
    (∀ a ∈ Config.Config.alarm,
      a.time = 0 ∧ 0 ≤ a.time ∧ a.time ≤ 86399 ∧ a.state = State.DISABLE ∧
      a.state ≠ State.ENABLE ∧ a.music = 0 ∧ a.days = 0 ∧
      ∀ d : Nat, bitSet a.days d = false) := by
  refine ⟨by decide, by decide, ?_⟩
  intro a ha
  have hdef : a = AlarmStruct.AlarmStruct := by
    simp only [Config.Config] at ha
    exact List.eq_of_mem_replicate ha
  subst hdef
  refine ⟨rfl, by decide, by decide, rfl, by decide, rfl, rfl, ?_⟩
  intro d
  simp [bitSet, AlarmStruct.AlarmStruct]

/-- The first default alarm entry. -/
theorem default_alarms_invariant_witness :
    Config.Config.alarm[0]? = some AlarmStruct.AlarmStruct ∧
    AlarmStruct.AlarmStruct.time ≤ 86399 ∧ AlarmStruct.AlarmStruct.state = State.DISABLE ∧
    bitSet AlarmStruct.AlarmStruct.days 3 = false := by
  have h := default_alarms_invariant.2.2 AlarmStruct.AlarmStruct (by decide)
  exact ⟨by decide, h.2.2.1, h.2.2.2.1, h.2.2.2.2.2.2.2 3⟩

/-- C9: the default phrase is copied in bounds and is well formed. "Photon"
has `DISPLAY_COUNT` (6) characters, so the `DISPLAY_COUNT + 1` bytes copied
are the six characters and the NUL, and they fill the buffer of
`DISPLAY_COUNT + 1` bytes whatever it held; the phrase ends in NUL at index
`DISPLAY_COUNT`, and each of its six characters lies in 0x20..0x7F with a
non-zero table entry. -/
theorem default_phrase_well_formed :
    DISPLAY_COUNT = 6 ∧ "Photon".length = DISPLAY_COUNT ∧
    (PSTR "Photon").length = DISPLAY_COUNT + 1 ∧
    phraseStorage.length = DISPLAY_COUNT + 1 ∧
    memcpy_P_inBounds phraseStorage (PSTR "Photon") (DISPLAY_COUNT + 1) ∧
    (∀ buf : List Nat, buf.length = DISPLAY_COUNT + 1 →
      memcpy_P buf (PSTR "Photon") (DISPLAY_COUNT + 1) = PSTR "Photon") ∧
    Config.Config.phrase = "Photon".toList.map Char.toNat ++ [0] ∧
    Config.Config.phrase.length = DISPLAY_COUNT + 1 ∧
    Config.Config.phrase[DISPLAY_COUNT]? = some 0 ∧
    (∀ i, i < DISPLAY_COUNT →
      ∃ ch g, Config.Config.phrase[i]? = some ch ∧ ch ≠ 0 ∧ 0x20 ≤ ch ∧ ch ≤ 0x7F ∧
        BITMAP[ch - 0x20]? = some g ∧ g ≠ 0x00) := by
  refine ⟨by decide, by decide, by decide, by decide, by decide, ?_,
    by decide, by decide, by decide, ?_⟩
  · intro buf hbuf
    have hsrc : (PSTR "Photon").length = DISPLAY_COUNT + 1 := by decide
    unfold memcpy_P
    rw [List.take_of_length_le (Nat.le_of_eq hsrc), List.drop_of_length_le (Nat.le_of_eq hbuf),
      List.append_nil]
  · intro i hi
    have hi6 : i < 6 := hi
    interval_cases i
    · exact ⟨0x50, 0xF8, by decide, by decide, by decide, by decide, by decide, by decide⟩
    · exact ⟨0x68, 0x5C, by decide, by decide, by decide, by decide, by decide, by decide⟩
    · exact ⟨0x6F, 0x1E, by decide, by decide, by decide, by decide, by decide, by decide⟩
    · exact ⟨0x74, 0x5A, by decide, by decide, by decide, by decide, by decide, by decide⟩
    · exact ⟨0x6F, 0x1E, by decide, by decide, by decide, by decide, by decide, by decide⟩
    · exact ⟨0x6E, 0x1C, by decide, by decide, by decide, by decide, by decide, by decide⟩

/-- The copy over a buffer of seven 0xFF bytes, and the first character. -/
theorem default_phrase_well_formed_witness :
    memcpy_P [0xFF, 0xFF, 0xFF, 0xFF, 0xFF, 0xFF, 0xFF] (PSTR "Photon") (DISPLAY_COUNT + 1) =
      PSTR "Photon" ∧
    (∃ ch g, Config.Config.phrase[0]? = some ch ∧ ch ≠ 0 ∧ 0x20 ≤ ch ∧ ch ≤ 0x7F ∧
        BITMAP[ch - 0x20]? = some g ∧ g ≠ 0x00) :=
  ⟨default_phrase_well_formed.2.2.2.2.2.1 _ (by decide),
   default_phrase_well_formed.2.2.2.2.2.2.2.2.2 0 (by decide)⟩

/-! ## Loading and saving the configuration -/

/-- C5: loading a persisted record whose sentinel differs from `CONFIG_KEY`
yields exactly the default `Config` (noise ENABLE, battery ENABLE, brightness
AUTO, gain 10, offset 10, date format DDMMYY, time format H24, temperature
unit F, effect NONE, blank_begin 0, blank_end 0, music_timer 0, `ALARM_COUNT`
default alarm entries, phrase "Photon"); and a `Config` whose sentinel is
`CONFIG_KEY`, saved with `SetConfig` and reloaded with `GetConfig`, comes back
equal in all fields. -/
theorem GetConfig_default_and_roundtrip :
    (∀ e : Eeprom, e.record.validate ≠ CONFIG_KEY → GetConfig e = Config.Config) ∧
    Config.Config =
      { validate := '$'.toNat
        noise := State.ENABLE
        battery := State.ENABLE
        brightness := CDisplay.Brightness.AUTO
        gain := 10
        offset := 10
        date_format := FormatDate.DDMMYY
        time_format := FormatTime.H24
        temperature_unit := CRTC.Unit.F
        effect := Effect.NONE
        blank_begin := 0
        blank_end := 0
        music_timer := 0
        alarm := [⟨State.DISABLE, 0, 0, 0⟩, ⟨State.DISABLE, 0, 0, 0⟩, ⟨State.DISABLE, 0, 0, 0⟩]
        phrase := "Photon".toList.map Char.toNat ++ [0] } ∧
    Config.Config.alarm.length = ALARM_COUNT ∧
    (∀ (c : Config) (e : Eeprom), c.validate = CONFIG_KEY → GetConfig (SetConfig c e) = c) := by
  refine ⟨?_, by decide, by decide, ?_⟩
  · intro e he
    simp only [GetConfig, if_pos he]
  · intro c e hc
    simp only [GetConfig, SetConfig, hc, ne_eq, not_true_eq_false, if_false]

/-- A stored record whose sentinel is 0xFF loads as the default, and a saved
configuration that differs from the default in many fields loads unchanged. -/
theorem GetConfig_default_and_roundtrip_witness :
    GetConfig ⟨{ Config.Config with validate := 0xFF, gain := 0xFF, phrase := [] }⟩ =
      Config.Config ∧
    GetConfig (SetConfig
        { Config.Config with
          noise := State.DISABLE
          brightness := CDisplay.Brightness.LEVEL 3
          date_format := FormatDate.YYMMDD
          blank_begin := 82800
          blank_end := 21600
          alarm := [⟨State.ENABLE, 2, 0x3E, 27000⟩, ⟨State.DISABLE, 0, 0, 0⟩, ⟨State.DISABLE, 0, 0, 0⟩]
          phrase := "Hello!".toList.map Char.toNat ++ [0] }
        ⟨Config.Config⟩) =
      { Config.Config with
        noise := State.DISABLE
        brightness := CDisplay.Brightness.LEVEL 3
        date_format := FormatDate.YYMMDD
        blank_begin := 82800
        blank_end := 21600
        alarm := [⟨State.ENABLE, 2, 0x3E, 27000⟩, ⟨State.DISABLE, 0, 0, 0⟩, ⟨State.DISABLE, 0, 0, 0⟩]
        phrase := "Hello!".toList.map Char.toNat ++ [0] } :=
  ⟨GetConfig_default_and_roundtrip.1 _ (by decide),
   GetConfig_default_and_roundtrip.2.2.2 _ _ (by decide)⟩

end VFDClock
